import Mathlib

/-!
Verification of the `logs` package (leveled logger + stack-capturing error
type). The definitions below are a shallow embedding of the Go source
(`error.go` and the logger file): pure Go functions become Lean functions,
ambient runtime state (the call stack, the clock) becomes explicit
parameters, and Go panics become `Except.error`.
-/

set_option maxRecDepth 4000

/-- Log level enum: Debug < Trace < Info < Warn < Error (ascending numeric). -/
inductive LogLevel where
  | debug
  | trace
  | info
  | warn
  | error
deriving DecidableEq, Repr

/-- Numeric value of a level (the Go `LogLevel uint8` iota value). -/
def LogLevel.toNat : LogLevel → Nat
  | .debug => 0
  | .trace => 1
  | .info => 2
  | .warn => 3
  | .error => 4

/-- `logLevelStringMap`: fixed-width space-padded level labels. -/
def logLevelStringMap : LogLevel → String
  | .debug => " DEBUG "
  | .trace => " TRACE "
  | .info  => " INFO  "
  | .warn  => " WARN  "
  | .error => " ERROR "

/-- One call-site snapshot, the model of `runtime.Frame` restricted to the
fields the program reads (`File`, `Line`). -/
structure Frame where
  file : String
  line : Nat
deriving DecidableEq, Repr

/-- `fmt.Sprintf("%s:%d", file, line)` applied to a frame. -/
def posString (f : Frame) : String := f.file ++ ":" ++ toString f.line

/-- Identity of the destination writer. The Go code decides the render branch
by pointer identity against `os.Stdout` / `os.Stderr`; anything else is a
plain (non-interactive) sink. -/
inductive Sink where
  | stdout
  | stderr
  | other (id : Nat)
deriving DecidableEq, Repr

/-- A Go `any` value passed in a variadic key/value list. The constructors
cover the concrete value shapes the claims exercise. -/
inductive GoValue where
  | str (s : String)
  | int (n : Int)
  | boolean (b : Bool)
deriving DecidableEq, Repr

/-- `fmt.Sprintf("%v", v)` on a `GoValue`. -/
def GoValue.format : GoValue → String
  | .str s => s
  | .int n => toString n
  | .boolean b => if b then "true" else "false"

/-- The unchecked Go type assertion `v.(string)`: yields the string or
panics (modelled as `Except.error`) when the dynamic type is not `string`. -/
def goAsString : GoValue → Except String String
  | .str s => .ok s
  | _ => .error "interface conversion: value is not a string"

/-- The external `gookit/color` capability, treated as opaque per the spec:
two functions mapping a level and a text to styled/toned text. -/
structure ColorLib where
  styleSprintf : LogLevel → String → String
  colorText : LogLevel → String → String

/-!
## Ordered field map

Modelled from the spec: the external `kkkunny/containers/linkedhashmap`
dependency (its source is not in this repository). Spec section 3: an
insertion-order-preserving key to string-value map, last-write-wins,
`set` updates an existing key in place without changing its position and
appends new keys at the end; iteration is in insertion order. We represent
it as an association list in insertion order.
-/

/-- `LinkedHashMap.Set`: update in place if the key exists, else append. -/
def lhmSet (m : List (String × String)) (k v : String) : List (String × String) :=
  if m.any (fun p => p.1 = k) then
    m.map (fun p => if p.1 = k then (k, v) else p)
  else
    m ++ [(k, v)]

/-!
## Error type (`error.go`)
-/

/-- The Go `error` values relevant to this program: a plain error (e.g. from
`fmt.Errorf` without wrapping), a wrapping error (`fmt.Errorf` with a
wrap verb: has an `Unwrap`), and the package's `logError` carrying captured
stack frames and a cause. -/
inductive GoErr where
  | base (msg : String)
  | wrapped (msg : String) (inner : GoErr)
  | logError (frames : List Frame) (cause : GoErr)
deriving DecidableEq, Repr

/-- `Error() string`: `logError.Error` delegates to the cause's message. -/
def GoErr.message : GoErr → String
  | .base m => m
  | .wrapped m _ => m
  | .logError _ c => c.message

/-- Whether a value itself implements the `Error` interface (only
`logError` does). -/
def isErrorCapability : GoErr → Bool
  | .logError _ _ => true
  | _ => false

/-- `errors.As(err, &logErr)` with target type `Error`: returns the first
value in the unwrap chain that implements `Error`, or none. `logError`
matches immediately; a plain error has no `Unwrap` and stops the walk. -/
def errorsAsLogError : GoErr → Option GoErr
  | .base _ => none
  | .wrapped _ inner => errorsAsLogError inner
  | .logError s c => some (.logError s c)

/-- `logError.Stacks()`: the captured frame list (empty for non-`logError`
values, on which the method does not exist). -/
def GoErr.Stacks : GoErr → List Frame
  | .logError s _ => s
  | _ => []

/-- `logError.Stack()`: `self.stacks[len(self.stacks)-1]`, the frame at
index `length - 1` (out of range on an empty list, hence `Option`). -/
def GoErr.Stack (e : GoErr) : Option Frame :=
  e.Stacks.get? (e.Stacks.length - 1)

/-- `newLogError(skip, err)`: walks the ambient call stack and stores it
reversed. `raw` is the ambient program counter list as `runtime.Callers`
would walk it, innermost (deepest, most recent) call first, index 0 being
the `runtime.Callers` frame itself. The code drops `skip+2` leading frames,
fills a 20-entry buffer, truncates the last entry (`pcs[:n-1]`), iterates
the remainder into `reverseStacks` (still innermost first) and then
reverses, so the stored `stacks` are oldest call first, deepest call last. -/
def newLogError (skip : Nat) (raw : List Frame) (err : GoErr) : GoErr :=
  .logError ((((raw.drop (skip + 2)).take 20).dropLast).reverse) err

/-- `ErrorWrap(err)`: nil stays nil; an error whose chain already carries an
`Error` is returned as that instance (no re-capture); otherwise a fresh
`logError` capturing the ambient stack (`raw`) at skip 1 is created. -/
def ErrorWrap (raw : List Frame) : Option GoErr → Option GoErr
  | none => none
  | some e =>
    match errorsAsLogError e with
    | some logErr => some logErr
    | none => some (newLogError 1 raw e)

/-!
## Logger
-/

/-- The `Logger` record: threshold level, ordered field map (global fields),
destination writer. -/
structure Logger where
  level : LogLevel
  values : List (String × String)
  writer : Sink
deriving DecidableEq, Repr

/-- The parse-and-set loop shared by `NewLogger` and `NewGroup`: for each
odd index `i`, `valueMap.Set(values[i-1].(string), fmt.Sprintf("%v", v))`.
The key uses an unchecked type assertion (panics on a non-string key); a
lone trailing element at an even index is never touched by the loop. -/
def ctorKVLoop (m : List (String × String)) : List GoValue → Except String (List (String × String))
  | [] => .ok m
  | [_] => .ok m
  | k :: v :: rest => do
    let ks ← goAsString k
    ctorKVLoop (lhmSet m ks v.format) rest

/-- `NewLogger(level, writer, values...)`: panics on an odd-length list,
then builds the field map from scratch. -/
def NewLogger (level : LogLevel) (writer : Sink) (values : List GoValue) : Except String Logger :=
  if values.length % 2 ≠ 0 then
    .error "The length of the values must be an even number"
  else
    (ctorKVLoop [] values).map (fun m => ⟨level, m, writer⟩)

/-- The copy loop at the start of `NewGroup`: iterates the parent's map in
insertion order, `Set`-ting each pair into a fresh map. -/
def copyMap (m : List (String × String)) : List (String × String) :=
  m.foldl (fun acc p => lhmSet acc p.1 p.2) []

/-- `Logger.NewGroup(values...)`: panics on an odd-length list, copies the
parent's field map into a fresh one, overlays the new pairs, and returns a
new `Logger` with the parent's level and writer. -/
def Logger.NewGroup (lg : Logger) (values : List GoValue) : Except String Logger :=
  if values.length % 2 ≠ 0 then
    .error "The length of the values must be an even number"
  else
    (ctorKVLoop (copyMap lg.values) values).map (fun m => ⟨lg.level, m, lg.writer⟩)

/-- The global-fields segment of `output`: `[key]value` pieces joined by
`" | "`, mirroring the iterator loop with its `HasNext` lookahead. -/
def renderGlobal : List (String × String) → String
  | [] => ""
  | [(k, v)] => "[" ++ k ++ "]" ++ v
  | (k, v) :: rest => "[" ++ k ++ "]" ++ v ++ " | " ++ renderGlobal rest

/-- The local-fields segment of `output`: `key=value` pieces joined by a
single space. -/
def renderLocal : List (String × String) → String
  | [] => ""
  | [(k, v)] => k ++ "=" ++ v
  | (k, v) :: rest => k ++ "=" ++ v ++ " " ++ renderLocal rest

/-- `Logger.output(level, pos, values)`: renders one line. Interactive sinks
(writer is stdout or stderr) get a styled badge plus a color-toned suffix;
anything else gets the plain fixed-width pipe-delimited layout. The ambient
clock is the explicit `timeStr` parameter (already formatted
`YYYY-MM-DD HH:MM:SS`). The returned string is the single line written to
the sink. -/
def Logger.output (lg : Logger) (cl : ColorLib) (level : LogLevel) (pos : String)
    (values : List (String × String)) (timeStr : String) : String :=
  let globalStr := renderGlobal lg.values
  let valueStr := renderLocal values
  if lg.writer = Sink.stdout ∨ lg.writer = Sink.stderr then
    let suffix := "| " ++ timeStr ++ " | " ++ pos ++ " | " ++ globalStr ++ " | " ++ valueStr
    cl.styleSprintf level (logLevelStringMap level) ++ cl.colorText level suffix
  else
    logLevelStringMap level ++ "| " ++ timeStr ++ " | " ++ pos ++ " | " ++ globalStr ++ " | " ++ valueStr

/-- `runtime.Caller(n)` for `n ≥ 1`, given the ambient caller stack `cs` of
the current function: `cs.head` is the call site that invoked the current
function (`Caller(1)`), `cs[1]` its caller's call site (`Caller(2)`), and so
on. Past the end of the stack the code ignores `ok` and gets the zero
values (empty file, line 0). -/
def runtimeCaller (cs : List Frame) (n : Nat) : Frame :=
  cs.getD (n - 1) ⟨"", 0⟩

/-- `Logger.outputByStack(level, skip, values)`: resolves the call site at
`runtime.Caller(skip+1)` and formats it as `file:line`. -/
def Logger.outputByStack (lg : Logger) (cl : ColorLib) (cs : List Frame)
    (level : LogLevel) (skip : Nat) (values : List (String × String)) (timeStr : String) : String :=
  lg.output cl level (posString (runtimeCaller cs (skip + 1))) values timeStr

/-- The item loop of `checkItems`: for each odd index, set
`fmt.Sprintf("%v", key)` to `fmt.Sprintf("%v", value)` (keys of any type
are stringified, no assertion). -/
def checkItemsLoop (m : List (String × String)) : List GoValue → List (String × String)
  | [] => m
  | [_] => m
  | k :: v :: rest => checkItemsLoop (lhmSet m k.format v.format) rest

/-- `Logger.checkItems(a...)`: panics on an odd-length list, else builds the
per-call field map. -/
def checkItems (a : List GoValue) : Except String (List (String × String)) :=
  if a.length % 2 ≠ 0 then
    .error "The number of items needs to be an even number"
  else
    .ok (checkItemsLoop [] a)

/-- A source frame in the logger file at a given line; the call sites the
wrapper layers push on the ambient stack. Their concrete values are never
reported (the skip arithmetic steps over them). -/
def srcFrame (line : Nat) : Frame := ⟨"logger.go", line⟩

/-- `Logger.print(level, skip, a...)`: validates/builds the items FIRST
(so an odd list panics even when the level is suppressed), then filters by
threshold, then emits via `outputByStack(level, skip+1, items)`. The result
is `none` when suppressed, `some line` when written. -/
def Logger.print (lg : Logger) (cl : ColorLib) (cs : List Frame)
    (level : LogLevel) (skip : Nat) (a : List GoValue) (timeStr : String) :
    Except String (Option String) :=
  match checkItems a with
  | .error e => .error e
  | .ok items =>
    if lg.level.toNat > level.toNat then .ok none
    else .ok (some (lg.outputByStack cl (srcFrame 191 :: cs) level (skip + 1) items timeStr))

/-- `Logger.printf(level, skip, f, a...)`: formats eagerly and forwards to
`print(level, skip+1, "msg", formatted)`. The already-formatted message is
the explicit `fmsg` parameter (format-verb semantics are out of scope). -/
def Logger.printf (lg : Logger) (cl : ColorLib) (cs : List Frame)
    (level : LogLevel) (skip : Nat) (fmsg : String) (timeStr : String) :
    Except String (Option String) :=
  lg.print cl (srcFrame 196 :: cs) level (skip + 1) [.str "msg", .str fmsg] timeStr

/-- The trace-lines loop of `printLogError`: one tab-indented `file:line`
per frame, newline-separated. -/
def stackLines : List Frame → String
  | [] => ""
  | [s] => "\t" ++ posString s
  | s :: rest => "\t" ++ posString s ++ "\n" ++ stackLines rest

/-- The full `stack` field value: a leading newline then the trace lines. -/
def stackTraceString (fs : List Frame) : String :=
  "\n" ++ stackLines fs

/-- `Logger.printLogError(level, err)`: filters by threshold first; then
renders the captured trace: local fields `error = message` and
`stack = trace`, position the LAST captured frame (`stacks[len-1]`, a panic
on an empty capture). Never touches the ambient caller stack. -/
def Logger.printLogError (lg : Logger) (cl : ColorLib) (level : LogLevel)
    (err : GoErr) (timeStr : String) : Except String (Option String) :=
  if lg.level.toNat > level.toNat then .ok none
  else
    let st := err.Stacks
    match st.get? (st.length - 1) with
    | none => .error "runtime error: index out of range"
    | some stack =>
      .ok (some (lg.output cl level (posString stack)
        (lhmSet (lhmSet [] "error" err.message) "stack" (stackTraceString st)) timeStr))

/-- `Logger.printError(level, skip, err)`: dispatches on `errors.As`: with
an `Error` in the chain, delegates to `printLogError`; otherwise a plain
`print(level, skip+1, "error", err.Error())`. -/
def Logger.printError (lg : Logger) (cl : ColorLib) (cs : List Frame)
    (level : LogLevel) (skip : Nat) (err : GoErr) (timeStr : String) :
    Except String (Option String) :=
  match errorsAsLogError err with
  | some logerr => lg.printLogError cl level logerr timeStr
  | none => lg.print cl (srcFrame 205 :: cs) level (skip + 1) [.str "error", .str err.message] timeStr

/-- `Logger.Debug(skip, a...)`. -/
def Logger.Debug (lg : Logger) (cl : ColorLib) (cs : List Frame) (skip : Nat)
    (a : List GoValue) (timeStr : String) : Except String (Option String) :=
  lg.print cl (srcFrame 235 :: cs) .debug (skip + 1) a timeStr

/-- `Logger.Debugf(skip, f, a...)`. -/
def Logger.Debugf (lg : Logger) (cl : ColorLib) (cs : List Frame) (skip : Nat)
    (fmsg : String) (timeStr : String) : Except String (Option String) :=
  lg.printf cl (srcFrame 240 :: cs) .debug (skip + 1) fmsg timeStr

/-- `Logger.DebugError(skip, err)`. -/
def Logger.DebugError (lg : Logger) (cl : ColorLib) (cs : List Frame) (skip : Nat)
    (err : GoErr) (timeStr : String) : Except String (Option String) :=
  lg.printError cl (srcFrame 245 :: cs) .debug (skip + 1) err timeStr

/-- `Logger.Trace(skip, a...)`. -/
def Logger.Trace (lg : Logger) (cl : ColorLib) (cs : List Frame) (skip : Nat)
    (a : List GoValue) (timeStr : String) : Except String (Option String) :=
  lg.print cl (srcFrame 250 :: cs) .trace (skip + 1) a timeStr

/-- `Logger.Tracef(skip, f, a...)`. -/
def Logger.Tracef (lg : Logger) (cl : ColorLib) (cs : List Frame) (skip : Nat)
    (fmsg : String) (timeStr : String) : Except String (Option String) :=
  lg.printf cl (srcFrame 255 :: cs) .trace (skip + 1) fmsg timeStr

/-- `Logger.TraceError(skip, err)`. -/
def Logger.TraceError (lg : Logger) (cl : ColorLib) (cs : List Frame) (skip : Nat)
    (err : GoErr) (timeStr : String) : Except String (Option String) :=
  lg.printError cl (srcFrame 260 :: cs) .trace (skip + 1) err timeStr

/-- `Logger.Info(skip, a...)`. -/
def Logger.Info (lg : Logger) (cl : ColorLib) (cs : List Frame) (skip : Nat)
    (a : List GoValue) (timeStr : String) : Except String (Option String) :=
  lg.print cl (srcFrame 265 :: cs) .info (skip + 1) a timeStr

/-- `Logger.Infof(skip, f, a...)`. -/
def Logger.Infof (lg : Logger) (cl : ColorLib) (cs : List Frame) (skip : Nat)
    (fmsg : String) (timeStr : String) : Except String (Option String) :=
  lg.printf cl (srcFrame 270 :: cs) .info (skip + 1) fmsg timeStr

/-- `Logger.InfoError(skip, err)`. -/
def Logger.InfoError (lg : Logger) (cl : ColorLib) (cs : List Frame) (skip : Nat)
    (err : GoErr) (timeStr : String) : Except String (Option String) :=
  lg.printError cl (srcFrame 275 :: cs) .info (skip + 1) err timeStr

/-- `Logger.Warn(skip, a...)`. -/
def Logger.Warn (lg : Logger) (cl : ColorLib) (cs : List Frame) (skip : Nat)
    (a : List GoValue) (timeStr : String) : Except String (Option String) :=
  lg.print cl (srcFrame 280 :: cs) .warn (skip + 1) a timeStr

/-- `Logger.Warnf(skip, f, a...)`. -/
def Logger.Warnf (lg : Logger) (cl : ColorLib) (cs : List Frame) (skip : Nat)
    (fmsg : String) (timeStr : String) : Except String (Option String) :=
  lg.printf cl (srcFrame 285 :: cs) .warn (skip + 1) fmsg timeStr

/-- `Logger.WarnError(skip, err)`. -/
def Logger.WarnError (lg : Logger) (cl : ColorLib) (cs : List Frame) (skip : Nat)
    (err : GoErr) (timeStr : String) : Except String (Option String) :=
  lg.printError cl (srcFrame 290 :: cs) .warn (skip + 1) err timeStr

/-- `Logger.Error(skip, a...)`. -/
def Logger.Error (lg : Logger) (cl : ColorLib) (cs : List Frame) (skip : Nat)
    (a : List GoValue) (timeStr : String) : Except String (Option String) :=
  lg.print cl (srcFrame 295 :: cs) .error (skip + 1) a timeStr

/-- `Logger.Errorf(skip, f, a...)`. -/
def Logger.Errorf (lg : Logger) (cl : ColorLib) (cs : List Frame) (skip : Nat)
    (fmsg : String) (timeStr : String) : Except String (Option String) :=
  lg.printf cl (srcFrame 300 :: cs) .error (skip + 1) fmsg timeStr

/-- `Logger.ErrorError(skip, err)`. -/
def Logger.ErrorError (lg : Logger) (cl : ColorLib) (cs : List Frame) (skip : Nat)
    (err : GoErr) (timeStr : String) : Except String (Option String) :=
  lg.printError cl (srcFrame 305 :: cs) .error (skip + 1) err timeStr

/-- The base (key/value) emit entry point of a given level. -/
def levelEmit : LogLevel → Logger → ColorLib → List Frame → Nat → List GoValue → String → Except String (Option String)
  | .debug => Logger.Debug
  | .trace => Logger.Trace
  | .info => Logger.Info
  | .warn => Logger.Warn
  | .error => Logger.Error

/-- The formatted emit entry point of a given level. -/
def levelEmitf : LogLevel → Logger → ColorLib → List Frame → Nat → String → String → Except String (Option String)
  | .debug => Logger.Debugf
  | .trace => Logger.Tracef
  | .info => Logger.Infof
  | .warn => Logger.Warnf
  | .error => Logger.Errorf

/-- The error emit entry point of a given level. -/
def levelEmitError : LogLevel → Logger → ColorLib → List Frame → Nat → GoErr → String → Except String (Option String)
  | .debug => Logger.DebugError
  | .trace => Logger.TraceError
  | .info => Logger.InfoError
  | .warn => Logger.WarnError
  | .error => Logger.ErrorError

/-- A color capability that applies no styling (used for concrete
evaluations; plain-sink renders never consult it). -/
def noColor : ColorLib := ⟨fun _ s => s, fun _ s => s⟩

/-!
## Helper lemmas
-/

/-- The index `length - 1` (as `stacks[len(stacks)-1]` computes it) is the
last element. -/
theorem get_length_sub_one_eq_getLast? {α : Type} (l : List α) :
    l.get? (l.length - 1) = l.getLast? := by
  induction l with
  | nil => rfl
  | cons a l ih =>
    cases l with
    | nil => rfl
    | cons b l' =>
      rw [List.getLast?_cons_cons]
      simpa using ih

/-- On a non-empty list, `get?` at `length - 1` yields the `getD` value. -/
theorem get_length_sub_one_of_ne {α : Type} (l : List α) (h : l ≠ []) (d : α) :
    l.get? (l.length - 1) = some (l.getD (l.length - 1) d) := by
  have hlt : l.length - 1 < l.length := by
    cases l with
    | nil => exact absurd rfl h
    | cons a t => simp
  rw [List.getD_eq_getElem?_getD, ← List.get?_eq_getElem?]
  cases hg : l.get? (l.length - 1) with
  | none => exact absurd (List.get?_eq_none.mp hg) (Nat.not_le_of_lt hlt)
  | some x => rfl

/-- Anything `errors.As` extracts with target `Error` implements `Error`. -/
theorem errorsAs_isLog (e : GoErr) : ∀ le, errorsAsLogError e = some le →
    isErrorCapability le = true := by
  induction e with
  | base m => intro le h; simp [errorsAsLogError] at h
  | wrapped m inner ih => intro le h; exact ih le (by simpa [errorsAsLogError] using h)
  | logError s c ih =>
    intro le h
    simp only [errorsAsLogError, Option.some.injEq] at h
    subst h
    rfl

/-- A value that implements `Error` is found by `errors.As` immediately, as
itself. -/
theorem errorsAs_of_isLog (le : GoErr) (h : isErrorCapability le = true) :
    errorsAsLogError le = some le := by
  cases le with
  | base m => simp [isErrorCapability] at h
  | wrapped m inner => simp [isErrorCapability] at h
  | logError s c => rfl

/-- Wrapping is idempotent as a function on optional errors. -/
theorem ErrorWrap_idem (raw raw' : List Frame) (oe : Option GoErr) :
    ErrorWrap raw' (ErrorWrap raw oe) = ErrorWrap raw oe := by
  cases oe with
  | none => rfl
  | some e =>
    show ErrorWrap raw' (ErrorWrap raw (some e)) = ErrorWrap raw (some e)
    cases h : errorsAsLogError e with
    | some le =>
      have h1 : ErrorWrap raw (some e) = some le := by
        simp [ErrorWrap, h]
      rw [h1]
      simp [ErrorWrap, errorsAs_of_isLog le (errorsAs_isLog e le h)]
    | none =>
      have h1 : ErrorWrap raw (some e) = some (newLogError 1 raw e) := by
        simp [ErrorWrap, h]
      rw [h1]
      simp [ErrorWrap, newLogError, errorsAsLogError]

/-!
## Claims
-/

/-- C1: wrapping is idempotent. A non-nil error that already satisfies the
`Error` capability is returned unchanged by `ErrorWrap`, so
`ErrorWrap (ErrorWrap e) = ErrorWrap e` (for every optional error and every
pair of ambient stacks) and the captured stack length does not grow under
repeated wrapping. -/
theorem c1_wrap_idempotent (raw raw' : List Frame) (e : GoErr) (oe : Option GoErr)
    (h : isErrorCapability e = true) :
    ErrorWrap raw (some e) = some e ∧
    ErrorWrap raw' (ErrorWrap raw oe) = ErrorWrap raw oe ∧
    (ErrorWrap raw' (ErrorWrap raw oe)).map (fun x => x.Stacks.length)
      = (ErrorWrap raw oe).map (fun x => x.Stacks.length) := by
  refine ⟨?_, ErrorWrap_idem raw raw' oe, by rw [ErrorWrap_idem raw raw' oe]⟩
  simp [ErrorWrap, errorsAs_of_isLog e h]

/-- Witness for C1 at a concrete already-wrapped error and a concrete raw
failure. -/
theorem c1_wrap_idempotent_witness :
    isErrorCapability (GoErr.logError [⟨"f.go", 3⟩] (.base "boom")) = true ∧
    (ErrorWrap [] (some (GoErr.logError [⟨"f.go", 3⟩] (.base "boom")))
        = some (GoErr.logError [⟨"f.go", 3⟩] (.base "boom")) ∧
      ErrorWrap [] (ErrorWrap [⟨"a.go", 1⟩, ⟨"b.go", 2⟩, ⟨"c.go", 3⟩] (some (.base "x")))
        = ErrorWrap [⟨"a.go", 1⟩, ⟨"b.go", 2⟩, ⟨"c.go", 3⟩] (some (.base "x")) ∧
      (ErrorWrap [] (ErrorWrap [⟨"a.go", 1⟩, ⟨"b.go", 2⟩, ⟨"c.go", 3⟩] (some (.base "x")))).map
          (fun x => x.Stacks.length)
        = (ErrorWrap [⟨"a.go", 1⟩, ⟨"b.go", 2⟩, ⟨"c.go", 3⟩] (some (.base "x"))).map
          (fun x => x.Stacks.length)) :=
  ⟨by decide,
    c1_wrap_idempotent [] [] (GoErr.logError [⟨"f.go", 3⟩] (.base "boom"))
      (some (.base "x")) (by decide)⟩

/-- C8: every constructed `logError` has a non-empty `stacks` sequence
(granted the runtime walk yields at least one frame after skipping and
truncation), ordered oldest call first and deepest most-recent call last
(the reverse of the innermost-first runtime walk), and `Stack()` is the
last element of `Stacks()`. -/
theorem c8_constructed_error_invariants (skip : Nat) (raw : List Frame) (e : GoErr)
    (h : ((raw.drop (skip + 2)).take 20).dropLast ≠ []) :
    (newLogError skip raw e).Stacks ≠ [] ∧
    (newLogError skip raw e).Stacks = (((raw.drop (skip + 2)).take 20).dropLast).reverse ∧
    (newLogError skip raw e).Stack = (newLogError skip raw e).Stacks.getLast? ∧
    (newLogError skip raw e).Stacks.getLast? = (((raw.drop (skip + 2)).take 20).dropLast).head? := by
  refine ⟨?_, rfl, ?_, ?_⟩
  · simpa [newLogError, GoErr.Stacks] using h
  · exact get_length_sub_one_eq_getLast? _
  · simp [newLogError, GoErr.Stacks]

/-- Witness for C8 on a concrete five-frame raw stack at skip 0. -/
theorem c8_constructed_error_invariants_witness :
    ((([⟨"callers.go", 1⟩, ⟨"new.go", 2⟩, ⟨"deep.go", 30⟩, ⟨"mid.go", 20⟩,
        ⟨"main.go", 10⟩] : List Frame).drop (0 + 2)).take 20).dropLast ≠ [] ∧
    ((newLogError 0 [⟨"callers.go", 1⟩, ⟨"new.go", 2⟩, ⟨"deep.go", 30⟩, ⟨"mid.go", 20⟩,
        ⟨"main.go", 10⟩] (.base "boom")).Stacks ≠ [] ∧
      (newLogError 0 [⟨"callers.go", 1⟩, ⟨"new.go", 2⟩, ⟨"deep.go", 30⟩, ⟨"mid.go", 20⟩,
        ⟨"main.go", 10⟩] (.base "boom")).Stacks
        = ((([⟨"callers.go", 1⟩, ⟨"new.go", 2⟩, ⟨"deep.go", 30⟩, ⟨"mid.go", 20⟩,
            ⟨"main.go", 10⟩] : List Frame).drop (0 + 2)).take 20).dropLast.reverse ∧
      (newLogError 0 [⟨"callers.go", 1⟩, ⟨"new.go", 2⟩, ⟨"deep.go", 30⟩, ⟨"mid.go", 20⟩,
        ⟨"main.go", 10⟩] (.base "boom")).Stack
        = (newLogError 0 [⟨"callers.go", 1⟩, ⟨"new.go", 2⟩, ⟨"deep.go", 30⟩, ⟨"mid.go", 20⟩,
            ⟨"main.go", 10⟩] (.base "boom")).Stacks.getLast? ∧
      (newLogError 0 [⟨"callers.go", 1⟩, ⟨"new.go", 2⟩, ⟨"deep.go", 30⟩, ⟨"mid.go", 20⟩,
        ⟨"main.go", 10⟩] (.base "boom")).Stacks.getLast?
        = ((([⟨"callers.go", 1⟩, ⟨"new.go", 2⟩, ⟨"deep.go", 30⟩, ⟨"mid.go", 20⟩,
            ⟨"main.go", 10⟩] : List Frame).drop (0 + 2)).take 20).dropLast.head?) :=
  ⟨by decide,
    c8_constructed_error_invariants 0
      [⟨"callers.go", 1⟩, ⟨"new.go", 2⟩, ⟨"deep.go", 30⟩, ⟨"mid.go", 20⟩, ⟨"main.go", 10⟩]
      (.base "boom") (by decide)⟩

/-- C9: a non-interactive render at Info level with local field
`user = alice`, empty global fields, position `svc.go:42` and the given
timestamp produces exactly the fixed-width pipe-delimited line, with the
empty global segment present, for every color capability (the plain branch
never consults it, so no escape sequences appear). -/
theorem c9_plain_render (cl : ColorLib) :
    Logger.output ⟨.info, [], .other 0⟩ cl .info "svc.go:42" [("user", "alice")]
        "2024-01-02 03:04:05"
      = " INFO  | 2024-01-02 03:04:05 | svc.go:42 |  | user=alice" := rfl

/-- C6: insertion order is preserved with last-write-wins: forking with
`a=1, b=2` then forking the result with `a=3` yields global fields
`[(a, 3), (b, 2)]`, rendering in order `a` then `b` with `a`'s value
updated in place. -/
theorem c6_field_order :
    (do
      let l0 ← NewLogger .info (.other 0) []
      let l1 ← l0.NewGroup [.str "a", .int 1, .str "b", .int 2]
      let l2 ← l1.NewGroup [.str "a", .int 3]
      pure (l2.values, renderGlobal l2.values))
      = Except.ok ([("a", "3"), ("b", "2")], "[a]3 | [b]2") := rfl

/-- C10: key handling is asymmetric. The per-call key/value list stringifies
a non-string key (the `Level` emit succeeds and renders `1=v`), while the
same pair makes `NewLogger` and `NewGroup` panic on the unchecked `.(string)`
assertion. -/
theorem c10_key_type_asymmetry :
    checkItems [.int 1, .str "v"] = .ok [("1", "v")] ∧
    Logger.Info ⟨.debug, [], .other 0⟩ noColor [⟨"main.go", 10⟩] 0 [.int 1, .str "v"]
        "2024-01-02 03:04:05"
      = .ok (some " INFO  | 2024-01-02 03:04:05 | main.go:10 |  | 1=v") ∧
    NewLogger .info (.other 0) [.int 1, .str "v"]
      = .error "interface conversion: value is not a string" ∧
    Logger.NewGroup ⟨.debug, [], .other 0⟩ [.int 1, .str "v"]
      = .error "interface conversion: value is not a string" :=
  ⟨rfl, rfl, rfl, rfl⟩

/-- Characterization of a permitted `print`: the call site is resolved at
index `skip` of the caller stack (the wrapper frame pushed inside `print`
plus the internal `+1` cancel out). -/
theorem print_char (lg : Logger) (cl : ColorLib) (cs : List Frame) (level : LogLevel)
    (skip : Nat) (a : List GoValue) (items : List (String × String)) (t : String)
    (hok : checkItems a = .ok items) (hlvl : ¬ lg.level.toNat > level.toNat) :
    lg.print cl cs level skip a t
      = .ok (some (lg.output cl level (posString (cs.getD skip ⟨"", 0⟩)) items t)) := by
  simp [Logger.print, hok, hlvl, Logger.outputByStack, runtimeCaller, Nat.add_sub_cancel,
    List.getD_cons_succ]

/-- A suppressed `print` still runs `checkItems` (panicking on an odd list)
but otherwise writes nothing, independent of the ambient caller stack. -/
theorem print_suppressed (lg : Logger) (cl : ColorLib) (cs : List Frame) (level : LogLevel)
    (skip : Nat) (a : List GoValue) (t : String) (h : lg.level.toNat > level.toNat) :
    lg.print cl cs level skip a t = (checkItems a).map (fun _ => none) := by
  cases hc : checkItems a <;> simp [Logger.print, hc, h, Except.map]

/-- `checkItems` on a two-element string list. -/
theorem checkItems_pair (k v : String) :
    checkItems [.str k, .str v] = .ok [(k, v)] := by
  simp [checkItems, checkItemsLoop, lhmSet, GoValue.format]

/-- Every base emit entry point forwards to `print` with one pushed wrapper
frame and `skip+1`. -/
theorem levelEmit_eq_print (lvl : LogLevel) (lg : Logger) (cl : ColorLib) (cs : List Frame)
    (skip : Nat) (a : List GoValue) (t : String) :
    ∃ f : Frame, levelEmit lvl lg cl cs skip a t = lg.print cl (f :: cs) lvl (skip + 1) a t := by
  cases lvl
  exacts [⟨_, rfl⟩, ⟨_, rfl⟩, ⟨_, rfl⟩, ⟨_, rfl⟩, ⟨_, rfl⟩]

/-- Every formatted emit entry point forwards through `printf` to `print`
with two pushed wrapper frames and `skip+2`, carrying `msg = formatted`. -/
theorem levelEmitf_eq_print (lvl : LogLevel) (lg : Logger) (cl : ColorLib) (cs : List Frame)
    (skip : Nat) (fmsg t : String) :
    ∃ f g : Frame, levelEmitf lvl lg cl cs skip fmsg t
      = lg.print cl (g :: f :: cs) lvl (skip + 2) [.str "msg", .str fmsg] t := by
  cases lvl
  exacts [⟨_, _, rfl⟩, ⟨_, _, rfl⟩, ⟨_, _, rfl⟩, ⟨_, _, rfl⟩, ⟨_, _, rfl⟩]

/-- Every error emit entry point forwards to `printError` with one pushed
wrapper frame and `skip+1`. -/
theorem levelEmitError_eq_printError (lvl : LogLevel) (lg : Logger) (cl : ColorLib)
    (cs : List Frame) (skip : Nat) (err : GoErr) (t : String) :
    ∃ f : Frame, levelEmitError lvl lg cl cs skip err t
      = lg.printError cl (f :: cs) lvl (skip + 1) err t := by
  cases lvl
  exacts [⟨_, rfl⟩, ⟨_, rfl⟩, ⟨_, rfl⟩, ⟨_, rfl⟩, ⟨_, rfl⟩]

/-- C3: frame-skip arithmetic is preserved through every wrapper layer: at
any permitted level, the base emit resolves the call site at index `skip`
of the original caller stack, and the formatted variant — despite its extra
wrapper layer — resolves exactly the same caller frame for the same `skip`. -/
theorem c3_frame_skip (lvl : LogLevel) (lg : Logger) (cl : ColorLib) (cs : List Frame)
    (skip : Nat) (a : List GoValue) (items : List (String × String)) (fmsg t : String)
    (hok : checkItems a = .ok items) (hlvl : ¬ lg.level.toNat > lvl.toNat) :
    levelEmit lvl lg cl cs skip a t
      = .ok (some (lg.output cl lvl (posString (cs.getD skip ⟨"", 0⟩)) items t)) ∧
    levelEmitf lvl lg cl cs skip fmsg t
      = .ok (some (lg.output cl lvl (posString (cs.getD skip ⟨"", 0⟩)) [("msg", fmsg)] t)) := by
  constructor
  · obtain ⟨f, hf⟩ := levelEmit_eq_print lvl lg cl cs skip a t
    rw [hf, print_char _ _ _ _ _ _ _ _ hok hlvl]
    simp [List.getD_cons_succ]
  · obtain ⟨f, g, hfg⟩ := levelEmitf_eq_print lvl lg cl cs skip fmsg t
    rw [hfg, print_char _ _ _ _ _ _ _ _ (checkItems_pair "msg" fmsg) hlvl]
    simp [List.getD_cons_succ]

/-- Witness for C3: on a Debug-threshold logger, an Info emit and an Infof
emit from caller site `app.go:77` at skip 0 both resolve `app.go:77`. -/
theorem c3_frame_skip_witness :
    checkItems [.str "k", .str "w"] = .ok [("k", "w")] ∧
    ¬ (Logger.mk .debug [] (.other 0)).level.toNat > LogLevel.info.toNat ∧
    (levelEmit .info ⟨.debug, [], .other 0⟩ noColor [⟨"app.go", 77⟩] 0 [.str "k", .str "w"] "T"
        = .ok (some (Logger.output ⟨.debug, [], .other 0⟩ noColor .info
            (posString (([⟨"app.go", 77⟩] : List Frame).getD 0 ⟨"", 0⟩)) [("k", "w")] "T")) ∧
      levelEmitf .info ⟨.debug, [], .other 0⟩ noColor [⟨"app.go", 77⟩] 0 "hello" "T"
        = .ok (some (Logger.output ⟨.debug, [], .other 0⟩ noColor .info
            (posString (([⟨"app.go", 77⟩] : List Frame).getD 0 ⟨"", 0⟩)) [("msg", "hello")] "T"))) :=
  ⟨rfl, by decide,
    c3_frame_skip .info ⟨.debug, [], .other 0⟩ noColor [⟨"app.go", 77⟩] 0
      [.str "k", .str "w"] [("k", "w")] "hello" "T" rfl (by decide)⟩

/-- C2 counterexample: on a Warn-threshold logger, a suppressed Debug call
with an odd-length key/value list still panics (the argument check runs
before the level filter), refuting that no odd-argument panic can be raised
by a suppressed call. -/
theorem c2_counterexample :
    Logger.Debug ⟨.warn, [], .other 0⟩ noColor [] 0 [.str "orphan"] "2024-01-02 03:04:05"
      = .error "The number of items needs to be an even number" := rfl

/-- C2 (amended): a call to any emit operation at a level strictly below the
threshold writes nothing to the sink and resolves no call site (the result
is independent of the ambient caller stack); for the base form the
key/value list is still validated and stringified first, so its result is
exactly the `checkItems` outcome mapped to no output, while the formatted
and error forms (whose lists are even by construction) return no output. -/
theorem c2_suppressed_amended (lvl : LogLevel) (lg : Logger) (cl : ColorLib) (cs : List Frame)
    (skip : Nat) (a : List GoValue) (fmsg : String) (err : GoErr) (t : String)
    (h : lg.level.toNat > lvl.toNat) :
    levelEmit lvl lg cl cs skip a t = (checkItems a).map (fun _ => none) ∧
    levelEmitf lvl lg cl cs skip fmsg t = .ok none ∧
    levelEmitError lvl lg cl cs skip err t = .ok none := by
  refine ⟨?_, ?_, ?_⟩
  · obtain ⟨f, hf⟩ := levelEmit_eq_print lvl lg cl cs skip a t
    rw [hf, print_suppressed _ _ _ _ _ _ _ h]
  · obtain ⟨f, g, hfg⟩ := levelEmitf_eq_print lvl lg cl cs skip fmsg t
    rw [hfg, print_suppressed _ _ _ _ _ _ _ h, checkItems_pair]
    rfl
  · obtain ⟨f, hf⟩ := levelEmitError_eq_printError lvl lg cl cs skip err t
    rw [hf]
    cases he : errorsAsLogError err with
    | some le => simp [Logger.printError, he, Logger.printLogError, h]
    | none =>
      simp only [Logger.printError, he]
      rw [print_suppressed _ _ _ _ _ _ _ h, checkItems_pair]
      rfl

/-- Witness for C2 (amended) on a Warn-threshold logger and Debug-level
calls with concrete arguments. -/
theorem c2_suppressed_amended_witness :
    (Logger.mk .warn [] (.other 0)).level.toNat > LogLevel.debug.toNat ∧
    (levelEmit .debug ⟨.warn, [], .other 0⟩ noColor [⟨"app.go", 5⟩] 0 [.str "k", .str "w"] "T"
        = (checkItems [.str "k", .str "w"]).map (fun _ => none) ∧
      levelEmitf .debug ⟨.warn, [], .other 0⟩ noColor [⟨"app.go", 5⟩] 0 "hi" "T" = .ok none ∧
      levelEmitError .debug ⟨.warn, [], .other 0⟩ noColor [⟨"app.go", 5⟩] 0 (.base "boom") "T"
        = .ok none) :=
  ⟨by decide,
    c2_suppressed_amended .debug ⟨.warn, [], .other 0⟩ noColor [⟨"app.go", 5⟩] 0
      [.str "k", .str "w"] "hi" (.base "boom") "T" (by decide)⟩

/-- C4: an odd-length variadic key/value list makes the base emit of every
level, the fork (`NewGroup`), and the constructor (`NewLogger`) all panic
(fail fast) rather than return a recoverable error. -/
theorem c4_odd_rejection (lvl lvl2 : LogLevel) (lg : Logger) (cl : ColorLib) (cs : List Frame)
    (skip : Nat) (w : Sink) (a : List GoValue) (t : String)
    (h : a.length % 2 ≠ 0) :
    levelEmit lvl lg cl cs skip a t = .error "The number of items needs to be an even number" ∧
    lg.NewGroup a = .error "The length of the values must be an even number" ∧
    NewLogger lvl2 w a = .error "The length of the values must be an even number" := by
  refine ⟨?_, ?_, ?_⟩
  · obtain ⟨f, hf⟩ := levelEmit_eq_print lvl lg cl cs skip a t
    rw [hf]
    simp [Logger.print, checkItems, h]
  · simp [Logger.NewGroup, h]
  · simp [NewLogger, h]

/-- Witness for C4 on a one-element list. -/
theorem c4_odd_rejection_witness :
    ([GoValue.str "x"] : List GoValue).length % 2 ≠ 0 ∧
    (levelEmit .info ⟨.debug, [], .other 0⟩ noColor [] 0 [.str "x"] "T"
        = .error "The number of items needs to be an even number" ∧
      Logger.NewGroup ⟨.debug, [], .other 0⟩ [.str "x"]
        = .error "The length of the values must be an even number" ∧
      NewLogger .warn (.other 0) [.str "x"]
        = .error "The length of the values must be an even number") :=
  ⟨by decide,
    c4_odd_rejection .info .warn ⟨.debug, [], .other 0⟩ noColor [] 0 (.other 0)
      [.str "x"] "T" (by decide)⟩

/-- Setting a key not yet present appends it at the end. -/
theorem lhmSet_not_mem (m : List (String × String)) (k v : String)
    (h : k ∉ m.map Prod.fst) : lhmSet m k v = m ++ [(k, v)] := by
  have hc : m.any (fun p => p.1 = k) = false := by
    simp only [List.any_eq_false, decide_eq_false_iff_not]
    intro p hp hk
    exact h (List.mem_map.mpr ⟨p, hp, of_decide_eq_true hk⟩)
  simp [lhmSet, hc]

/-- Folding `Set` over a key-distinct pair list extends the accumulator on
the right, provided the keys are fresh for the accumulator. -/
theorem foldl_lhmSet_nodup : ∀ (m acc : List (String × String)),
    (m.map Prod.fst).Nodup → (∀ k ∈ m.map Prod.fst, k ∉ acc.map Prod.fst) →
    m.foldl (fun acc p => lhmSet acc p.1 p.2) acc = acc ++ m := by
  intro m
  induction m with
  | nil => intro acc _ _; simp
  | cons p rest ih =>
    intro acc hnd hdisj
    have hp : p.1 ∉ acc.map Prod.fst := hdisj p.1 (by simp)
    have hnd' : (rest.map Prod.fst).Nodup := by
      simpa using hnd.of_cons
    have hhead : p.1 ∉ rest.map Prod.fst := by
      have := hnd
      simp only [List.map_cons, List.nodup_cons] at this
      exact this.1
    have hdisj' : ∀ k ∈ rest.map Prod.fst, k ∉ (acc ++ [p]).map Prod.fst := by
      intro k hk
      simp only [List.map_append, List.mem_append, List.map_cons, List.map_nil,
        List.mem_singleton]
      rintro (hka | hkp)
      · exact hdisj k (by simp [hk]) hka
      · exact hhead (hkp ▸ hk)
    calc (p :: rest).foldl (fun acc p => lhmSet acc p.1 p.2) acc
        = rest.foldl (fun acc p => lhmSet acc p.1 p.2) (lhmSet acc p.1 p.2) := by
          simp
      _ = rest.foldl (fun acc p => lhmSet acc p.1 p.2) (acc ++ [p]) := by
          rw [lhmSet_not_mem acc p.1 p.2 hp]
      _ = (acc ++ [p]) ++ rest := ih (acc ++ [p]) hnd' hdisj'
      _ = acc ++ p :: rest := by simp

/-- The `NewGroup` copy loop reproduces a key-distinct parent map exactly. -/
theorem copyMap_eq_self (m : List (String × String)) (hnd : (m.map Prod.fst).Nodup) :
    copyMap m = m := by
  simpa [copyMap] using foldl_lhmSet_nodup m [] hnd (by simp)

/-- The key/value pairs denoted by an even-length variadic list whose keys
are all strings: each key paired with the `%v` rendering of its value (a
lone trailing element is ignored, matching the loops). -/
def goPairs : List GoValue → Option (List (String × String))
  | [] => some []
  | [_] => some []
  | .str s :: v :: rest => (goPairs rest).map (fun ps => (s, v.format) :: ps)
  | _ :: _ :: _ => none

/-- The overlay operation as the spec words it: the parent's field map
extended by `Set`-ting each new pair in order (update in place on an
existing key, append otherwise). -/
def specOverlay (m ps : List (String × String)) : List (String × String) :=
  ps.foldl (fun acc p => lhmSet acc p.1 p.2) m

/-- The constructor loop computes exactly the spec overlay whenever all keys
are strings. -/
theorem ctorKVLoop_eq_overlay : ∀ (kvs : List GoValue) (m ps : List (String × String)),
    goPairs kvs = some ps → ctorKVLoop m kvs = .ok (specOverlay m ps)
  | [], m, ps, h => by
    simp only [goPairs, Option.some.injEq] at h
    subst h
    rfl
  | [_], m, ps, h => by
    simp only [goPairs, Option.some.injEq] at h
    subst h
    rfl
  | .str s :: v :: rest, m, ps, h => by
    simp only [goPairs, Option.map_eq_some'] at h
    obtain ⟨ps', hps', rfl⟩ := h
    simpa [ctorKVLoop, goAsString, specOverlay] using
      ctorKVLoop_eq_overlay rest (lhmSet m s v.format) ps' hps'
  | .int _ :: _ :: _, m, ps, h => by simp [goPairs] at h
  | .boolean _ :: _ :: _, m, ps, h => by simp [goPairs] at h

/-- C5: for every logger with a well-formed (key-distinct) field map and
every even-length string-keyed key/value list, `NewGroup` returns a logger
with the same threshold and the same sink whose field map is the parent's
fields overlaid with the new pairs; the parent itself is a value the fork
never mutates (the copy loop writes into a fresh map). -/
theorem c5_fork_semantics (lg : Logger) (kvs : List GoValue) (ps : List (String × String))
    (hnd : (lg.values.map Prod.fst).Nodup) (hev : kvs.length % 2 = 0)
    (hps : goPairs kvs = some ps) :
    lg.NewGroup kvs = .ok ⟨lg.level, specOverlay lg.values ps, lg.writer⟩ := by
  unfold Logger.NewGroup
  rw [if_neg (not_not_intro hev), copyMap_eq_self lg.values hnd,
    ctorKVLoop_eq_overlay kvs lg.values ps hps]
  rfl

/-- Witness for C5: forking a logger carrying `a=1, b=2` with
`a=3, c=true`. -/
theorem c5_fork_semantics_witness :
    ((([("a", "1"), ("b", "2")] : List (String × String)).map Prod.fst).Nodup ∧
      ([GoValue.str "a", GoValue.int 3, GoValue.str "c", GoValue.boolean true] :
        List GoValue).length % 2 = 0 ∧
      goPairs [GoValue.str "a", GoValue.int 3, GoValue.str "c", GoValue.boolean true]
        = some [("a", "3"), ("c", "true")]) ∧
    Logger.NewGroup ⟨.info, [("a", "1"), ("b", "2")], .stdout⟩
        [.str "a", .int 3, .str "c", .boolean true]
      = .ok ⟨.info, specOverlay [("a", "1"), ("b", "2")] [("a", "3"), ("c", "true")], .stdout⟩ :=
  ⟨⟨by decide, by decide, rfl⟩,
    c5_fork_semantics ⟨.info, [("a", "1"), ("b", "2")], .stdout⟩
      [.str "a", .int 3, .str "c", .boolean true] [("a", "3"), ("c", "true")]
      (by decide) (by decide) rfl⟩

/-- The two local fields `printLogError` builds. -/
theorem errStackFields (m s : String) :
    lhmSet (lhmSet [] "error" m) "stack" s = [("error", m), ("stack", s)] := by
  simp [lhmSet]

/-- C7: at a permitted level, a `LevelError` call with an error satisfying
the `Error` capability renders at the position of its primary (last) frame
with exactly the two local fields `error` (the message) and `stack` (the
newline-joined multi-frame trace), independent of the ambient caller stack;
with a bare error it renders as a plain `Level` call with the single
`error` field, resolving the call site fresh at the original `skip`. -/
theorem c7_error_emit (lvl : LogLevel) (lg : Logger) (cl : ColorLib) (cs : List Frame)
    (skip : Nat) (fs : List Frame) (cause : GoErr) (plainErr : GoErr) (t : String)
    (hperm : ¬ lg.level.toNat > lvl.toNat) (hne : fs ≠ [])
    (hplain : errorsAsLogError plainErr = none) :
    levelEmitError lvl lg cl cs skip (.logError fs cause) t
      = .ok (some (lg.output cl lvl (posString (fs.getD (fs.length - 1) ⟨"", 0⟩))
          [("error", (GoErr.logError fs cause).message), ("stack", stackTraceString fs)] t)) ∧
    levelEmitError lvl lg cl cs skip plainErr t
      = .ok (some (lg.output cl lvl (posString (cs.getD skip ⟨"", 0⟩))
          [("error", plainErr.message)] t)) := by
  constructor
  · obtain ⟨f, hf⟩ := levelEmitError_eq_printError lvl lg cl cs skip (.logError fs cause) t
    rw [hf]
    show lg.printLogError cl lvl (.logError fs cause) t = _
    unfold Logger.printLogError
    rw [if_neg hperm]
    simp only [GoErr.Stacks]
    rw [get_length_sub_one_of_ne fs hne ⟨"", 0⟩, errStackFields]
  · obtain ⟨f, hf⟩ := levelEmitError_eq_printError lvl lg cl cs skip plainErr t
    rw [hf]
    simp only [Logger.printError, hplain]
    rw [print_char _ _ _ _ _ _ _ _ (checkItems_pair "error" plainErr.message) hperm]
    simp [List.getD_cons_succ]

/-- Witness for C7: an Info-level error emit of a two-frame captured error
and of a bare error, from caller site `svc.go:42` at skip 0. -/
theorem c7_error_emit_witness :
    (¬ (Logger.mk .debug [] (.other 0)).level.toNat > LogLevel.info.toNat ∧
      ([⟨"file1.go", 10⟩, ⟨"file2.go", 20⟩] : List Frame) ≠ [] ∧
      errorsAsLogError (.base "bare") = none) ∧
    (levelEmitError .info ⟨.debug, [], .other 0⟩ noColor [⟨"svc.go", 42⟩] 0
        (.logError [⟨"file1.go", 10⟩, ⟨"file2.go", 20⟩] (.base "boom")) "T"
      = .ok (some (Logger.output ⟨.debug, [], .other 0⟩ noColor .info
          (posString (([⟨"file1.go", 10⟩, ⟨"file2.go", 20⟩] : List Frame).getD
            (([⟨"file1.go", 10⟩, ⟨"file2.go", 20⟩] : List Frame).length - 1) ⟨"", 0⟩))
          [("error", (GoErr.logError [⟨"file1.go", 10⟩, ⟨"file2.go", 20⟩] (.base "boom")).message),
            ("stack", stackTraceString [⟨"file1.go", 10⟩, ⟨"file2.go", 20⟩])] "T")) ∧
      levelEmitError .info ⟨.debug, [], .other 0⟩ noColor [⟨"svc.go", 42⟩] 0 (.base "bare") "T"
      = .ok (some (Logger.output ⟨.debug, [], .other 0⟩ noColor .info
          (posString (([⟨"svc.go", 42⟩] : List Frame).getD 0 ⟨"", 0⟩))
          [("error", (GoErr.base "bare").message)] "T"))) :=
  ⟨⟨by decide, by decide, rfl⟩,
    c7_error_emit .info ⟨.debug, [], .other 0⟩ noColor [⟨"svc.go", 42⟩] 0
      [⟨"file1.go", 10⟩, ⟨"file2.go", 20⟩] (.base "boom") (.base "bare") "T"
      (by decide) (by decide) rfl⟩
